import Mathlib

/-!
# Field data upload app — shallow embedding

Shallow embedding of the core logic of the field-data-collection wizard:
the server endpoints over the key-value store, the relational `tests`
mirror and the storage bucket (`supabase/functions/server/index.ts`, with
the earlier kv-only PUT handler kept alongside), the client's
metadata-edit submit handler (`App.tsx`), the geolocation fallback chain
(`GeoLocationScreen`), and the video file selection filter
(`VideoUploadScreen`).

JSON objects are modelled as structures whose optional fields are
`Option`; a patch field that is `none` stands for an absent key, so the
JS spread `{...base, ...patch}` becomes a field-wise "patch value if
present, else base value" (`jsSpread`).  JS `null` and `undefined` are
conflated, which is faithful for the payloads the client actually sends
(it never sends explicit nulls).  Timestamps (`new Date().toISOString()`,
`Date.now()`) are passed in as explicit parameters.
-/

/-- JS spread / `??` semantics on an optional patch field: the patch value
wins when the key is present, otherwise the base value is kept. -/
def jsSpread {α : Type} (patchVal : Option α) (baseVal : Option α) : Option α :=
  match patchVal with
  | some v => some v
  | none => baseVal

/-- JS `||` on a possibly-missing string with a default: both a missing
value and the empty string (falsy) fall through to the default. -/
def jsOr (v : Option String) (d : String) : String :=
  match v with
  | some s => if s = "" then d else s
  | none => d

/-- Prefix test on character lists (the kernel-computable content of
`String.startsWith`). -/
def strStartsWith (s pre : String) : Bool :=
  pre.data.isPrefixOf s.data

/-- Substring occurrence on character lists. -/
def listIsInfix (pat : List Char) : List Char → Bool
  | [] => pat.isEmpty
  | c :: rest => pat.isPrefixOf (c :: rest) || listIsInfix pat rest

/-- JS `String.prototype.includes`: substring test on the character
lists. -/
def jsIncludes (s pat : String) : Bool :=
  listIsInfix pat.data s.data

/-- Client-side user identity (`UserInfo` in `App.tsx`). -/
structure UserInfo where
  userName : String
  email : String
deriving DecidableEq

/-- Geo data as stored in test-record JSON.  The client always produces
every field, but the PUT handler's reconstruction from a relational row
leaves the numeric fields and the timestamp nullable, so they are
`Option` here; `city`/`state` are defaulted to `''` by that same
reconstruction and stay plain strings. -/
structure GeoJ where
  latitude : Option Int
  longitude : Option Int
  city : String
  state : String
  accuracy : Option Int
  timestamp : Option String
deriving DecidableEq

/-- The ~24 metadata fields (`MetadataForm` in `App.tsx`).  All fields are
`Option` because a PUT body may carry a metadata object with only some
keys present; the client's form always sends all of them. -/
structure Metadata where
  date : Option String
  deviceId : Option String
  deviceType : Option String
  testCycle : Option String
  location : Option String
  environment : Option String
  timeStart : Option String
  timeEnd : Option String
  roadType : Option String
  postedSpeedLimit : Option String
  numberOfLanes : Option String
  trafficDensity : Option String
  roadHeading : Option String
  cameraHeading : Option String
  lighting : Option String
  weatherCondition : Option String
  severity : Option String
  measuredDistance : Option String
  mountHeight : Option String
  pitchAngle : Option String
  vehicleCaptureView : Option String
  externalBatteryPluggedIn : Option Bool
  firmware : Option String
  varVersion : Option String
deriving DecidableEq

/-- A video reference as stored on a test record and in `test_videos`. -/
structure VideoRef where
  fileName : String
  url : Option String
  size : Nat
  type : String
  uploadedAt : String
deriving DecidableEq

/-- The test record held in the key-value store under `test:<id>`. -/
structure TestRecord where
  testId : String
  sessionId : Option String
  userInfo : Option UserInfo
  geoLocation : Option GeoJ
  metadata : Option Metadata
  videos : List VideoRef
  videoFileName : Option String
  videoUrl : Option String
  videoUploadedAt : Option String
  status : String
  createdAt : String
  updatedAt : String
deriving DecidableEq

/-- An incoming JSON body for POST `/tests` (`testData`) or PUT
`/tests/:id` (`updates`): each recognised key may be present or absent.
(`testId` is required by POST and ignored by PUT, which takes the id from
the path.) -/
structure TestPatch where
  testId : String
  sessionId : Option String
  userInfo : Option UserInfo
  geoLocation : Option GeoJ
  metadata : Option Metadata
  videos : Option (List VideoRef)
  videoFileName : Option String
  videoUrl : Option String
  status : Option String
deriving DecidableEq

/-- The empty JSON body: no keys present. -/
def emptyPatch : TestPatch :=
  { testId := ""
    sessionId := none
    userInfo := none
    geoLocation := none
    metadata := none
    videos := none
    videoFileName := none
    videoUrl := none
    status := none }

/-- A row of the relational `tests` table (nullable columns are
`Option`). -/
structure TestsRow where
  test_id : String
  session_id : Option String
  user_name : Option String
  email : Option String
  geo_latitude : Option Int
  geo_longitude : Option Int
  geo_city : Option String
  geo_state : Option String
  geo_accuracy : Option Int
  geo_timestamp : Option String
  metadata_date : Option String
  device_id : Option String
  device_type : Option String
  test_cycle : Option String
  location : Option String
  environment : Option String
  time_start : Option String
  time_end : Option String
  road_type : Option String
  posted_speed_limit : Option String
  number_of_lanes : Option String
  traffic_density : Option String
  road_heading : Option String
  camera_heading : Option String
  lighting : Option String
  weather_condition : Option String
  severity : Option String
  measured_distance : Option String
  mount_height : Option String
  pitch_angle : Option String
  vehicle_capture_view : Option String
  external_battery_plugged_in : Option Bool
  firmware : Option String
  var_version : Option String
  latest_video_file_name : Option String
  latest_video_url : Option String
  video_uploaded_at : Option String
  status : Option String
  created_at : Option String
  updated_at : Option String
deriving DecidableEq

/-- A row of the `test_videos` table. -/
structure VideoRow where
  testId : String
  video : VideoRef
deriving DecidableEq

/-- Server-side state: the key-value store (`test:<id>` entries), the
relational `tests` table, the storage bucket's object keys, and the
`test_videos` table. -/
structure ServerState where
  kv : String → Option TestRecord
  rows : String → Option TestsRow
  storage : List String
  videoRows : List VideoRow

/-- The initial state: nothing stored anywhere. -/
def emptyState : ServerState :=
  { kv := fun _ => none
    rows := fun _ => none
    storage := []
    videoRows := [] }

/-- An HTTP error response (status code and message). -/
structure ApiErr where
  code : Nat
  msg : String
deriving DecidableEq

/-- The kv record written by POST `/tests` (`index.ts` lines 158-174,
identically in the kv-only server): spread of the existing record under
the new body, with `videos` kept unless the body carries an array,
`status` defaulted to `pending`, `createdAt` preserved, and `updatedAt`
bumped. -/
def postRecord (existing : Option TestRecord) (p : TestPatch) (now : String) : TestRecord :=
  let existingVideos : List VideoRef :=
    match existing with
    | some t => t.videos
    | none => []
  { testId := p.testId
    sessionId := jsSpread p.sessionId (existing.bind (·.sessionId))
    userInfo := jsSpread p.userInfo (existing.bind (·.userInfo))
    geoLocation := jsSpread p.geoLocation (existing.bind (·.geoLocation))
    metadata := jsSpread p.metadata (existing.bind (·.metadata))
    videos := p.videos.getD existingVideos
    videoFileName := jsSpread p.videoFileName (existing.bind (·.videoFileName))
    videoUrl := jsSpread p.videoUrl (existing.bind (·.videoUrl))
    videoUploadedAt := existing.bind (·.videoUploadedAt)
    status := (jsSpread p.status (existing.map (·.status))).getD "pending"
    createdAt :=
      match existing with
      | some t => t.createdAt
      | none => now
    updatedAt := now }

/-- The user-derived columns of a `tests` upsert payload: the source reads
`user.userName ?? null` etc. after `const user = ... || {}`. -/
structure UserCols where
  user_name : Option String
  email : Option String

/-- Compute the user columns (one match per source object avoids a
field-by-field `Option.bind`). -/
def userCols : Option UserInfo → UserCols
  | none => { user_name := none, email := none }
  | some u => { user_name := some u.userName, email := some u.email }

/-- The geo-derived columns of a `tests` upsert payload. -/
structure GeoCols where
  geo_latitude : Option Int
  geo_longitude : Option Int
  geo_city : Option String
  geo_state : Option String
  geo_accuracy : Option Int
  geo_timestamp : Option String

/-- Compute the geo columns (`geo.latitude ?? null` etc.). -/
def geoCols : Option GeoJ → GeoCols
  | none =>
    { geo_latitude := none, geo_longitude := none, geo_city := none
      geo_state := none, geo_accuracy := none, geo_timestamp := none }
  | some g =>
    { geo_latitude := g.latitude
      geo_longitude := g.longitude
      geo_city := some g.city
      geo_state := some g.state
      geo_accuracy := g.accuracy
      geo_timestamp := g.timestamp }

/-- The metadata-derived columns of a `tests` upsert payload. -/
structure MetaCols where
  metadata_date : Option String
  device_id : Option String
  device_type : Option String
  test_cycle : Option String
  location : Option String
  environment : Option String
  time_start : Option String
  time_end : Option String
  road_type : Option String
  posted_speed_limit : Option String
  number_of_lanes : Option String
  traffic_density : Option String
  road_heading : Option String
  camera_heading : Option String
  lighting : Option String
  weather_condition : Option String
  severity : Option String
  measured_distance : Option String
  mount_height : Option String
  pitch_angle : Option String
  vehicle_capture_view : Option String
  external_battery_plugged_in : Option Bool
  firmware : Option String
  var_version : Option String

/-- Compute the metadata columns (`metadata.date ?? null` etc.). -/
def metaCols : Option Metadata → MetaCols
  | none =>
    { metadata_date := none, device_id := none, device_type := none
      test_cycle := none, location := none, environment := none
      time_start := none, time_end := none, road_type := none
      posted_speed_limit := none, number_of_lanes := none
      traffic_density := none, road_heading := none, camera_heading := none
      lighting := none, weather_condition := none, severity := none
      measured_distance := none, mount_height := none, pitch_angle := none
      vehicle_capture_view := none, external_battery_plugged_in := none
      firmware := none, var_version := none }
  | some m =>
    { metadata_date := m.date
      device_id := m.deviceId
      device_type := m.deviceType
      test_cycle := m.testCycle
      location := m.location
      environment := m.environment
      time_start := m.timeStart
      time_end := m.timeEnd
      road_type := m.roadType
      posted_speed_limit := m.postedSpeedLimit
      number_of_lanes := m.numberOfLanes
      traffic_density := m.trafficDensity
      road_heading := m.roadHeading
      camera_heading := m.cameraHeading
      lighting := m.lighting
      weather_condition := m.weatherCondition
      severity := m.severity
      measured_distance := m.measuredDistance
      mount_height := m.mountHeight
      pitch_angle := m.pitchAngle
      vehicle_capture_view := m.vehicleCaptureView
      external_battery_plugged_in := m.externalBatteryPluggedIn
      firmware := m.firmware
      var_version := m.varVersion }

/-- The latest-video columns carried over from an existing row when the
upsert payload omits them. -/
structure OldVideoCols where
  latest_video_file_name : Option String
  latest_video_url : Option String
  video_uploaded_at : Option String

/-- Read the latest-video columns of an optional existing row. -/
def oldVideoCols : Option TestsRow → OldVideoCols
  | none =>
    { latest_video_file_name := none, latest_video_url := none
      video_uploaded_at := none }
  | some r =>
    { latest_video_file_name := r.latest_video_file_name
      latest_video_url := r.latest_video_url
      video_uploaded_at := r.video_uploaded_at }

/-- The `tests` row upserted by POST `/tests` (`index.ts` lines 180-218).
Columns absent from the upsert payload (`latest_video_*`,
`video_uploaded_at`) keep their old value on conflict and default to null
on insert; `status`/`created_at` are taken from the body and the existing
kv record, exactly as in the source. -/
def postRow (existingKv : Option TestRecord) (old : Option TestsRow) (p : TestPatch)
    (now : String) : TestsRow :=
  let m := metaCols p.metadata
  let g := geoCols p.geoLocation
  let u := userCols p.userInfo
  let ov := oldVideoCols old
  { test_id := p.testId
    session_id := p.sessionId
    user_name := u.user_name
    email := u.email
    geo_latitude := g.geo_latitude
    geo_longitude := g.geo_longitude
    geo_city := g.geo_city
    geo_state := g.geo_state
    geo_accuracy := g.geo_accuracy
    geo_timestamp := g.geo_timestamp
    metadata_date := m.metadata_date
    device_id := m.device_id
    device_type := m.device_type
    test_cycle := m.test_cycle
    location := m.location
    environment := m.environment
    time_start := m.time_start
    time_end := m.time_end
    road_type := m.road_type
    posted_speed_limit := m.posted_speed_limit
    number_of_lanes := m.number_of_lanes
    traffic_density := m.traffic_density
    road_heading := m.road_heading
    camera_heading := m.camera_heading
    lighting := m.lighting
    weather_condition := m.weather_condition
    severity := m.severity
    measured_distance := m.measured_distance
    mount_height := m.mount_height
    pitch_angle := m.pitch_angle
    vehicle_capture_view := m.vehicle_capture_view
    external_battery_plugged_in := m.external_battery_plugged_in
    firmware := m.firmware
    var_version := m.var_version
    latest_video_file_name := ov.latest_video_file_name
    latest_video_url := ov.latest_video_url
    video_uploaded_at := ov.video_uploaded_at
    status := some ((jsSpread p.status (existingKv.map (·.status))).getD "pending")
    created_at := some
      (match existingKv with
       | some t => t.createdAt
       | none => now)
    updated_at := some now }

/-- POST `/tests` (`index.ts` lines 150-225): 400 when `testId` is falsy,
otherwise merge-write the kv record and upsert the mirror row. -/
def postTest (st : ServerState) (p : TestPatch) (now : String) :
    Except ApiErr String × ServerState :=
  if p.testId = "" then
    (Except.error ⟨400, "testId is required"⟩, st)
  else
    let existing := st.kv p.testId
    let newRec := postRecord existing p now
    let newRow := postRow existing (st.rows p.testId) p now
    (Except.ok p.testId,
      { st with
        kv := fun id => if id = p.testId then some newRec else st.kv id
        rows := fun id => if id = p.testId then some newRow else st.rows id })

/-- The merge computed by PUT `/tests/:id` (`index.ts` lines 280-286, and
identically in the kv-only server's lines 195-201): spread of the base
record under the update body, with the `metadata` sub-object replaced
wholesale when the body carries one, and `updatedAt` bumped. -/
def mergeUpdate (base : TestRecord) (testId : String) (updates : TestPatch)
    (now : String) : TestRecord :=
  { testId := testId
    sessionId := jsSpread updates.sessionId base.sessionId
    userInfo := jsSpread updates.userInfo base.userInfo
    geoLocation := jsSpread updates.geoLocation base.geoLocation
    metadata := jsSpread updates.metadata base.metadata
    videos := updates.videos.getD base.videos
    videoFileName := jsSpread updates.videoFileName base.videoFileName
    videoUrl := jsSpread updates.videoUrl base.videoUrl
    videoUploadedAt := base.videoUploadedAt
    status := updates.status.getD base.status
    createdAt := base.createdAt
    updatedAt := now }

/-- PUT `/tests/:id` of the kv-only server (the earlier handler, lines
184-209 of that file): 404 when no kv record exists, otherwise merge and
rewrite. -/
def putTestKv (st : ServerState) (testId : String) (updates : TestPatch)
    (now : String) : Except ApiErr String × ServerState :=
  match st.kv testId with
  | none => (Except.error ⟨404, "Test not found"⟩, st)
  | some test =>
    let merged := mergeUpdate test testId updates now
    (Except.ok testId,
      { st with kv := fun id => if id = testId then some merged else st.kv id })

/-- The fallback base record the current PUT handler builds from the
relational row when the kv record is absent (`index.ts` lines 236-279):
user/geo/metadata are reconstructed from the row's columns with `''`,
`false` and null defaults; the object carries no sessionId, videos or
video fields. -/
def baseFromRow (testId : String) (testRow : Option TestsRow) (now : String) : TestRecord :=
  match testRow with
  | none =>
    { testId := testId
      sessionId := none
      userInfo := some { userName := "", email := "" }
      geoLocation := some
        { latitude := none, longitude := none, city := "", state := ""
          accuracy := none, timestamp := none }
      metadata := some
        { date := some "", deviceId := some "", deviceType := some ""
          testCycle := some "", location := some "", environment := some ""
          timeStart := some "", timeEnd := some "", roadType := some ""
          postedSpeedLimit := some "", numberOfLanes := some ""
          trafficDensity := some "", roadHeading := some ""
          cameraHeading := some "", lighting := some ""
          weatherCondition := some "", severity := some ""
          measuredDistance := some "", mountHeight := some ""
          pitchAngle := some "", vehicleCaptureView := some ""
          externalBatteryPluggedIn := some false, firmware := some ""
          varVersion := some "" }
      videos := []
      videoFileName := none
      videoUrl := none
      videoUploadedAt := none
      status := "pending"
      createdAt := now
      updatedAt := now }
  | some r =>
    { testId := testId
      sessionId := none
      userInfo := some
        { userName := r.user_name.getD ""
          email := r.email.getD "" }
      geoLocation := some
        { latitude := r.geo_latitude
          longitude := r.geo_longitude
          city := r.geo_city.getD ""
          state := r.geo_state.getD ""
          accuracy := r.geo_accuracy
          timestamp := r.geo_timestamp }
      metadata := some
        { date := some (r.metadata_date.getD "")
          deviceId := some (r.device_id.getD "")
          deviceType := some (r.device_type.getD "")
          testCycle := some (r.test_cycle.getD "")
          location := some (r.location.getD "")
          environment := some (r.environment.getD "")
          timeStart := some (r.time_start.getD "")
          timeEnd := some (r.time_end.getD "")
          roadType := some (r.road_type.getD "")
          postedSpeedLimit := some (r.posted_speed_limit.getD "")
          numberOfLanes := some (r.number_of_lanes.getD "")
          trafficDensity := some (r.traffic_density.getD "")
          roadHeading := some (r.road_heading.getD "")
          cameraHeading := some (r.camera_heading.getD "")
          lighting := some (r.lighting.getD "")
          weatherCondition := some (r.weather_condition.getD "")
          severity := some (r.severity.getD "")
          measuredDistance := some (r.measured_distance.getD "")
          mountHeight := some (r.mount_height.getD "")
          pitchAngle := some (r.pitch_angle.getD "")
          vehicleCaptureView := some (r.vehicle_capture_view.getD "")
          externalBatteryPluggedIn := some (r.external_battery_plugged_in.getD false)
          firmware := some (r.firmware.getD "")
          varVersion := some (r.var_version.getD "") }
      videos := []
      videoFileName := none
      videoUrl := none
      videoUploadedAt := none
      status := r.status.getD "pending"
      createdAt := r.created_at.getD now
      updatedAt := r.updated_at.getD now }

/-- The `tests` row upserted by the current PUT handler (`index.ts` lines
294-334): every column is rebuilt from the merged record; the only column
absent from the payload is `video_uploaded_at`, which keeps its old value
on conflict. -/
def putRow (old : Option TestsRow) (t : TestRecord) (now : String) : TestsRow :=
  let m := metaCols t.metadata
  let g := geoCols t.geoLocation
  let u := userCols t.userInfo
  let ov := oldVideoCols old
  { test_id := t.testId
    session_id := t.sessionId
    user_name := u.user_name
    email := u.email
    geo_latitude := g.geo_latitude
    geo_longitude := g.geo_longitude
    geo_city := g.geo_city
    geo_state := g.geo_state
    geo_accuracy := g.geo_accuracy
    geo_timestamp := g.geo_timestamp
    metadata_date := m.metadata_date
    device_id := m.device_id
    device_type := m.device_type
    test_cycle := m.test_cycle
    location := m.location
    environment := m.environment
    time_start := m.time_start
    time_end := m.time_end
    road_type := m.road_type
    posted_speed_limit := m.posted_speed_limit
    number_of_lanes := m.number_of_lanes
    traffic_density := m.traffic_density
    road_heading := m.road_heading
    camera_heading := m.camera_heading
    lighting := m.lighting
    weather_condition := m.weather_condition
    severity := m.severity
    measured_distance := m.measured_distance
    mount_height := m.mount_height
    pitch_angle := m.pitch_angle
    vehicle_capture_view := m.vehicle_capture_view
    external_battery_plugged_in := m.external_battery_plugged_in
    firmware := m.firmware
    var_version := m.var_version
    latest_video_file_name := t.videoFileName
    latest_video_url := t.videoUrl
    video_uploaded_at := ov.video_uploaded_at
    status := some t.status
    created_at := some t.createdAt
    updated_at := some now }

/-- PUT `/tests/:id` of the current server (`index.ts` lines 228-341): no
not-found branch — when the kv record is absent the handler reconstructs a
base from the relational row (or from blank defaults when that is also
absent), merges the update into it, and writes both stores, always
answering success. -/
def putTest (st : ServerState) (testId : String) (updates : TestPatch)
    (now : String) : Except ApiErr String × ServerState :=
  let testRow := st.rows testId
  let base : TestRecord :=
    match st.kv testId with
    | some t => t
    | none => baseFromRow testId testRow now
  let merged := mergeUpdate base testId updates now
  let newRow := putRow testRow merged now
  (Except.ok testId,
    { st with
      kv := fun id => if id = testId then some merged else st.kv id
      rows := fun id => if id = testId then some newRow else st.rows id })

/-- Insertion-sort by a boolean "comes no later than" key, used to model
the `order by uploaded_at ascending` read of `test_videos`. -/
def insertLe {α : Type} (le : α → α → Bool) (x : α) : List α → List α
  | [] => [x]
  | y :: ys => if le x y then x :: y :: ys else y :: insertLe le x ys

/-- Sort a list with `insertLe`. -/
def sortLe {α : Type} (le : α → α → Bool) : List α → List α
  | [] => []
  | x :: xs => insertLe le x (sortLe le xs)

/-- GET `/tests/:id` of the current server (`index.ts` lines 344-411):
404 (`none`) when the `tests` row is absent, otherwise the row joined
with its video rows ordered by `uploaded_at` ascending (the JSON shaping
of the response is a field-for-field renaming of this pair). -/
def getTest (st : ServerState) (testId : String) :
    Option (TestsRow × List VideoRef) :=
  match st.rows testId with
  | none => none
  | some row =>
    let vids := (st.videoRows.filter (fun v => v.testId = testId)).map (·.video)
    some (row, sortLe (fun a b => a.uploadedAt ≤ b.uploadedAt) vids)

/-- The blob keys referenced by a record, as collected by DELETE
`/tests/:id` (`index.ts` lines 583-593): the legacy `videoFileName` field
when truthy, then each truthy `fileName` in the `videos` list. -/
def collectBlobKeys (t : TestRecord) : List String :=
  (match t.videoFileName with
   | some f => if f = "" then [] else [f]
   | none => []) ++
  t.videos.filterMap (fun v => if v.fileName = "" then none else some v.fileName)

/-- DELETE `/tests/:id` (`index.ts` lines 573-610): 404 when no kv record
exists; otherwise the referenced blob keys (deduplicated via a set) are
removed from the bucket, then the kv record and the `tests` row are
deleted. -/
def deleteTest (st : ServerState) (testId : String) :
    Except ApiErr Unit × ServerState :=
  match st.kv testId with
  | none => (Except.error ⟨404, "Test not found"⟩, st)
  | some test =>
    let filesToDelete := (collectBlobKeys test).dedup
    let storage1 :=
      if filesToDelete.length > 0 then
        st.storage.filter (fun k => !(filesToDelete.contains k))
      else st.storage
    (Except.ok (),
      { st with
        storage := storage1
        kv := fun id => if id = testId then none else st.kv id
        rows := fun id => if id = testId then none else st.rows id })

/-- An uploaded file's client-visible attributes. -/
structure UploadFile where
  name : String
  size : Nat
  type : String
deriving DecidableEq

/-- POST `/upload-video` (`index.ts` lines 486-570): the blob is stored
under `testId-<millis>-<name>` and a signed URL minted BEFORE the test
record is looked up; an absent record then yields 404 with the blob left
in the bucket.  On success the kv record gains the video reference and
flips to `completed`, a `test_videos` row is inserted, and the `tests`
row's latest-video columns are updated (a no-op when the row is absent).
Storage upload is modelled as failing exactly on a duplicate key
(`upsert: false`), and `createSignedUrl` as always succeeding. -/
def uploadVideo (st : ServerState) (f : UploadFile) (testId : String)
    (nowIso : String) (nowMs : Nat) :
    Except ApiErr (String × Option String) × ServerState :=
  if testId = "" then
    (Except.error ⟨400, "file and testId are required"⟩, st)
  else
    let fileName := testId ++ "-" ++ toString nowMs ++ "-" ++ f.name
    if st.storage.contains fileName then
      (Except.error ⟨500, "Upload failed"⟩, st)
    else
      let storage1 := st.storage ++ [fileName]
      let signedUrl : Option String := some ("signed:" ++ fileName)
      match st.kv testId with
      | none =>
        (Except.error ⟨404, "Test not found"⟩, { st with storage := storage1 })
      | some test =>
        let nextVideo : VideoRef :=
          { fileName := fileName
            url := signedUrl
            size := f.size
            type := f.type
            uploadedAt := nowIso }
        let updated : TestRecord :=
          { test with
            videos := test.videos ++ [nextVideo]
            videoFileName := some fileName
            videoUrl := signedUrl
            videoUploadedAt := some nowIso
            status := "completed"
            updatedAt := nowIso }
        (Except.ok (fileName, signedUrl),
          { st with
            storage := storage1
            kv := fun id => if id = testId then some updated else st.kv id
            videoRows := st.videoRows ++ [⟨testId, nextVideo⟩]
            rows := fun id =>
              if id = testId then
                (st.rows id).map (fun r =>
                  { r with
                    latest_video_file_name := some fileName
                    latest_video_url := signedUrl
                    video_uploaded_at := some nowIso
                    status := some "completed"
                    updated_at := some nowIso })
              else st.rows id })

/-- The edit-mode branch of the client's `handleMetadataSubmit`
(`App.tsx`, the newest revision): PUT the form's metadata; when the
server answers 404, retry as a POST carrying the currently held
session/user/geo state together with the form data; the submission counts
as success exactly when one of the two calls succeeded.  The server calls
are the current handlers (`putTest` / `postTest`). -/
def clientEditSubmit (st : ServerState) (currentTestId sessionId : String)
    (userInfo : Option UserInfo) (geoLocation : Option GeoJ)
    (formData : Metadata) (now : String) : Bool × ServerState :=
  match putTest st currentTestId { emptyPatch with metadata := some formData } now with
  | (Except.ok _, st1) => (true, st1)
  | (Except.error e, st1) =>
    if e.code = 404 then
      match postTest st1
          { emptyPatch with
            testId := currentTestId
            sessionId := some sessionId
            userInfo := userInfo
            geoLocation := geoLocation
            metadata := some formData } now with
      | (Except.ok _, st2) => (true, st2)
      | (Except.error _, st2) => (false, st2)
    else (false, st1)

/-!
## Location resolver (`GeoLocationScreen`, full revision)

The environment supplies the outcome of each external interaction: the
GPS request (`none` = any failure, including timeout), the Nominatim
reverse-geocode response, the server `/location/ip` response (`none` =
non-ok response or thrown fetch), and each direct provider's response
(`none` = non-ok, timeout or thrown fetch).
-/

/-- A successful GPS position. -/
structure GpsPos where
  latitude : Int
  longitude : Int
  accuracy : Int
deriving DecidableEq

/-- The `address` object of a Nominatim reverse-geocode response. -/
structure NominatimAddr where
  city : Option String
  town : Option String
  village : Option String
  state : Option String
deriving DecidableEq

/-- The JSON body of a server `/location/ip` response. -/
structure ServerIPJson where
  success : Bool
  city : Option String
  state : Option String
deriving DecidableEq

/-- The JSON body of a direct IP-geolocation provider response (the three
providers use different field names for the region). -/
structure ProviderJson where
  city : Option String
  region : Option String
  regionName : Option String
deriving DecidableEq

/-- The resolver's environment of external outcomes. -/
structure GeoEnv where
  geolocationSupported : Bool
  gpsResult : Option GpsPos
  reverseGeo : Option NominatimAddr
  serverResp : Option ServerIPJson
  providerResp : String → Option ProviderJson

/-- The client-side `GeoLocation` object (all fields present). -/
structure GeoLocation where
  latitude : Int
  longitude : Int
  city : String
  state : String
  accuracy : Int
  timestamp : String
deriving DecidableEq

/-- `reverseGeocode`: on a response, `address.city || town || village ||
'Unknown'` and `address.state || 'Unknown'`; on any failure,
`Unknown`/`Unknown`. -/
def reverseGeocode (r : Option NominatimAddr) : String × String :=
  match r with
  | some a => (jsOr a.city (jsOr a.town (jsOr a.village "Unknown")), jsOr a.state "Unknown")
  | none => ("Unknown", "Unknown")

/-- The configured list of direct IP-geolocation services, in order. -/
def services : List String :=
  ["https://ipapi.co/json/", "https://ip-api.com/json/", "https://ipinfo.io/json"]

/-- The per-service response-field mapping inside `getDirectIPLocation`'s
loop (keyed on `service.includes(...)`). -/
def mapService (service : String) (data : ProviderJson) : Option (String × String) :=
  if jsIncludes service "ipapi.co" then
    some (jsOr data.city "Unknown", jsOr data.region "Unknown")
  else if jsIncludes service "ip-api.com" then
    some (jsOr data.city "Unknown", jsOr data.regionName "Unknown")
  else if jsIncludes service "ipinfo.io" then
    some (jsOr data.city "Unknown", jsOr data.region "Unknown")
  else none

/-- The provider loop of `getDirectIPLocation`: try each service in
order, returning the first successfully mapped response. -/
def tryServices (svcs : List String) (resp : String → Option ProviderJson) :
    Option (String × String) :=
  match svcs with
  | [] => none
  | s :: rest =>
    match resp s with
    | some data =>
      match mapService s data with
      | some cs => some cs
      | none => tryServices rest resp
    | none => tryServices rest resp

/-- The services actually contacted by the provider loop: every service
up to and including the first success (all of them when none succeeds). -/
def triedServices (svcs : List String) (resp : String → Option ProviderJson) :
    List String :=
  match svcs with
  | [] => []
  | s :: rest =>
    s ::
      (match resp s with
       | some data =>
         match mapService s data with
         | some _ => []
         | none => triedServices rest resp
       | none => triedServices rest resp)

/-- `getDirectIPLocation`: the provider loop, falling back to the
hard-coded default `San Francisco`/`California` when every service fails
(its own catch also returns that default, so the function never
throws). -/
def getDirectIPLocation (resp : String → Option ProviderJson) : String × String :=
  (tryServices services resp).getD ("San Francisco", "California")

/-- The successful-outcome view of the server `/location/ip` call: ok
response with `success: true` yields its city/state (with `Unknown`
defaults); anything else falls through. -/
def serverIPSuccess (r : Option ServerIPJson) : Option (String × String) :=
  match r with
  | some d =>
    if d.success then some (jsOr d.city "Unknown", jsOr d.state "Unknown") else none
  | none => none

/-- `getIPBasedLocation`: the backend endpoint first; every failure path
(non-ok response, `success: false`, thrown fetch) falls back to
`getDirectIPLocation`. -/
def getIPBasedLocation (env : GeoEnv) : String × String :=
  match serverIPSuccess env.serverResp with
  | some cs => cs
  | none => getDirectIPLocation env.providerResp

/-- The state `captureLocation` leaves behind: the location set (if any)
and whether manual-entry mode was switched on. -/
structure CaptureOutcome where
  location : Option GeoLocation
  showManualEntry : Bool
deriving DecidableEq

/-- `captureLocation`: GPS first (high accuracy, 8s timeout, no cached
fix); on success, reverse-geocode and keep the GPS coordinates; on any
GPS failure, fall back to `getIPBasedLocation` with zeroed coordinates
and manual-entry mode switched on.  The source's innermost catch (which
would produce an `Unknown`/`Unknown` fix) is unreachable, because
`getIPBasedLocation` and `getDirectIPLocation` swallow every failure and
return a default — the totality of the Lean translation mirrors that. -/
def captureLocation (env : GeoEnv) (now : String) : CaptureOutcome :=
  if env.geolocationSupported = false then
    { location := none, showManualEntry := true }
  else
    match env.gpsResult with
    | some pos =>
      let cs := reverseGeocode env.reverseGeo
      { location := some
          { latitude := pos.latitude
            longitude := pos.longitude
            city := cs.1
            state := cs.2
            accuracy := pos.accuracy
            timestamp := now }
        showManualEntry := false }
    | none =>
      let cs := getIPBasedLocation env
      { location := some
          { latitude := 0
            longitude := 0
            city := cs.1
            state := cs.2
            accuracy := 0
            timestamp := now }
        showManualEntry := true }

/-- One network attempt made by the resolver, in order. -/
inductive GeoAttempt where
  | gps
  | serverIP
  | provider (url : String)
deriving DecidableEq

/-- The ordered list of attempts `captureLocation` makes: the GPS
request; then, only on GPS failure, the server IP endpoint; then, only
when that fails, the direct providers up to the first success. -/
def captureAttempts (env : GeoEnv) : List GeoAttempt :=
  if env.geolocationSupported = false then []
  else
    match env.gpsResult with
    | some _ => [GeoAttempt.gps]
    | none =>
      GeoAttempt.gps :: GeoAttempt.serverIP ::
        (match serverIPSuccess env.serverResp with
         | some _ => []
         | none => (triedServices services env.providerResp).map GeoAttempt.provider)

/-- Whether the direct provider at position `k` of the configured list
responds successfully in `env`. -/
def providerOk (env : GeoEnv) (k : Nat) : Bool :=
  match services.get? k with
  | some s => (env.providerResp s).isSome
  | none => false

/-!
## Video file selection (`VideoUploadScreen`, multi-file revision)
-/

/-- A local file as seen by the selection handlers. -/
structure FileMeta where
  name : String
  type : String
  size : Nat
deriving DecidableEq

/-- The user-visible notice emitted by a selection event. -/
inductive SelectNotice where
  | accepted (count : Nat)
  | rejected
deriving DecidableEq

/-- `handleDrop`: filter the dropped files by the `video/` MIME prefix;
a nonempty result replaces the selection, otherwise an error notice is
shown and the selection is kept. -/
def handleDrop (prior dropped : List FileMeta) :
    List FileMeta × Option SelectNotice :=
  let files := dropped.filter (fun f => strStartsWith f.type "video/")
  if files.length > 0 then (files, some (SelectNotice.accepted files.length))
  else (prior, some SelectNotice.rejected)

/-- `handleFileSelect`: same filter for the file-input path, but guarded
by `files && files.length > 0` — an empty selection is ignored without
any notice. -/
def handleFileSelect (prior incoming : List FileMeta) :
    List FileMeta × Option SelectNotice :=
  if incoming.length > 0 then
    let videoFiles := incoming.filter (fun f => strStartsWith f.type "video/")
    if videoFiles.length > 0 then
      (videoFiles, some (SelectNotice.accepted videoFiles.length))
    else (prior, some SelectNotice.rejected)
  else (prior, none)

/-!
## Shared lemmas and concrete fixtures
-/

/-- Every field of `Metadata` absent. -/
def emptyMetadata : Metadata :=
  { date := none, deviceId := none, deviceType := none, testCycle := none
    location := none, environment := none, timeStart := none, timeEnd := none
    roadType := none, postedSpeedLimit := none, numberOfLanes := none
    trafficDensity := none, roadHeading := none, cameraHeading := none
    lighting := none, weatherCondition := none, severity := none
    measuredDistance := none, mountHeight := none, pitchAngle := none
    vehicleCaptureView := none, externalBatteryPluggedIn := none
    firmware := none, varVersion := none }

/-- A fully populated metadata form, as the client submits. -/
def sampleMeta : Metadata :=
  { date := some "2026-01-20", deviceId := some "D1", deviceType := some "EVT"
    testCycle := some "RC1", location := some "Fremont"
    environment := some "urban", timeStart := some "10:00"
    timeEnd := some "11:00", roadType := some "freeway"
    postedSpeedLimit := some "65", numberOfLanes := some "4"
    trafficDensity := some "medium", roadHeading := some "N"
    cameraHeading := some "N", lighting := some "day"
    weatherCondition := some "clear", severity := some "low"
    measuredDistance := some "30", mountHeight := some "1.2"
    pitchAngle := some "5", vehicleCaptureView := some "front"
    externalBatteryPluggedIn := some true, firmware := some "v1"
    varVersion := some "2.3" }

/-- A sample user identity. -/
def sampleUser : UserInfo := { userName := "Alice", email := "alice@example.com" }

/-- A sample client-produced geo fix (all fields present). -/
def sampleGeo : GeoJ :=
  { latitude := some 37, longitude := some (-122), city := "Fremont"
    state := "California", accuracy := some 12
    timestamp := some "2026-01-20T10:00:00Z" }

/-- A sample video reference. -/
def sampleVideo1 : VideoRef :=
  { fileName := "t1-1000-clip1.mp4", url := some "signed:t1-1000-clip1.mp4"
    size := 100, type := "video/mp4", uploadedAt := "2026-01-20T10:10:00Z" }

/-- A second sample video reference. -/
def sampleVideo2 : VideoRef :=
  { fileName := "t1-2000-clip2.mp4", url := some "signed:t1-2000-clip2.mp4"
    size := 200, type := "video/mp4", uploadedAt := "2026-01-20T10:20:00Z" }

/-- `jsSpread` swallows a second application of the same patch field. -/
theorem jsSpread_self {α : Type} (a b : Option α) :
    jsSpread a (jsSpread a b) = jsSpread a b := by
  cases a <;> rfl

/-- `Option.getD` swallows a second application of the same patch field. -/
theorem opt_getD_self {α : Type} (a : Option α) (b : α) :
    a.getD (a.getD b) = a.getD b := by
  cases a <;> rfl

/-- Re-merging a status patch over the already-merged status is stable. -/
theorem jsSpread_getD_self {α : Type} (a b : Option α) (d : α) :
    (jsSpread a (some ((jsSpread a b).getD d))).getD d = (jsSpread a b).getD d := by
  cases a <;> rfl

/-!
## Claim theorems
-/

/-- Claim C1 (code bug evidence): for a testId with no record in either
store, the current PUT handler does not fail with NotFound — it answers
success and creates a kv record — whereas the earlier kv-only handler
returns 404 and leaves the store unchanged, which is what the spec and
the client's create-fallback rely on. -/
theorem put_missing_test_creates_record :
    (putTest emptyState "t1" { emptyPatch with metadata := some sampleMeta } "T1").1 =
      Except.ok "t1" ∧
    ((putTest emptyState "t1" { emptyPatch with metadata := some sampleMeta } "T1").2.kv "t1").isSome =
      true ∧
    (putTestKv emptyState "t1" { emptyPatch with metadata := some sampleMeta } "T1").1 =
      Except.error ⟨404, "Test not found"⟩ ∧
    (putTestKv emptyState "t1" { emptyPatch with metadata := some sampleMeta } "T1").2.kv "t1" =
      none :=
  ⟨rfl, rfl, rfl, rfl⟩

/-- Claim C8 (code bug evidence): against the current server, an
edit-mode metadata submit for a nonexistent testId is counted as success
without the create-fallback ever running, and the record it leaves behind
differs from the one a direct create with the held user/geo/metadata
state would have produced (the PUT-created record has blank user info and
no session, the direct create carries the drafts). -/
theorem editSubmit_absent_test_divergence :
    (clientEditSubmit emptyState "t1" "s1" (some sampleUser) (some sampleGeo) sampleMeta "T1").1 =
      true ∧
    ((clientEditSubmit emptyState "t1" "s1" (some sampleUser) (some sampleGeo) sampleMeta
        "T1").2.kv "t1").bind (·.userInfo) = some { userName := "", email := "" } ∧
    ((postTest emptyState
        { emptyPatch with
          testId := "t1"
          sessionId := some "s1"
          userInfo := some sampleUser
          geoLocation := some sampleGeo
          metadata := some sampleMeta } "T1").2.kv "t1").bind (·.userInfo) = some sampleUser ∧
    (clientEditSubmit emptyState "t1" "s1" (some sampleUser) (some sampleGeo) sampleMeta
        "T1").2.kv "t1" ≠
      (postTest emptyState
        { emptyPatch with
          testId := "t1"
          sessionId := some "s1"
          userInfo := some sampleUser
          geoLocation := some sampleGeo
          metadata := some sampleMeta } "T1").2.kv "t1" := by
  refine ⟨rfl, rfl, rfl, ?_⟩
  decide

/-- The metadata of the record used to exhibit C2's failure: `deviceId`
and `firmware` set, the rest absent. -/
def c2Meta : Metadata := { emptyMetadata with deviceId := some "D1", firmware := some "v1" }

/-- The existing record used to exhibit C2's failure: full user/geo data,
two videos, and metadata `c2Meta`. -/
def c2Record : TestRecord :=
  { testId := "t1"
    sessionId := some "s1"
    userInfo := some sampleUser
    geoLocation := some sampleGeo
    metadata := some c2Meta
    videos := [sampleVideo1, sampleVideo2]
    videoFileName := some "t1-2000-clip2.mp4"
    videoUrl := some "signed:t1-2000-clip2.mp4"
    videoUploadedAt := some "2026-01-20T10:20:00Z"
    status := "completed"
    createdAt := "2026-01-20T10:00:00Z"
    updatedAt := "2026-01-20T10:20:00Z" }

/-- A state holding only `c2Record` in the kv store. -/
def c2State : ServerState :=
  { emptyState with kv := fun id => if id = "t1" then some c2Record else none }

/-- Claim C2 (counterexample): a PUT whose body's metadata object carries
only the firmware key does NOT leave the other metadata fields unchanged
— the metadata sub-object is replaced wholesale, so the record's
`deviceId` (previously "D1") is gone after the update. -/
theorem putTest_metadata_patch_drops_other_fields :
    ((putTest c2State "t1"
        { emptyPatch with metadata := some { emptyMetadata with firmware := some "v2" } }
        "T1").2.kv "t1").bind (fun r => r.metadata.bind (·.deviceId)) = none ∧
    (c2State.kv "t1").bind (fun r => r.metadata.bind (·.deviceId)) = some "D1" :=
  ⟨rfl, rfl⟩

/-- Claim C2 (amended): because the PUT merge replaces the metadata
sub-object wholesale, the frame property holds for a patch that resends
the record's full metadata with only the firmware value changed: every
other metadata field, all geo fields and the video references (and also
the user info, video mirrors, session, status and createdAt) are
unchanged. -/
theorem putTest_full_metadata_patch_frame (st : ServerState) (tid fw now : String)
    (rec : TestRecord) (m0 : Metadata)
    (hrec : st.kv tid = some rec) (hmeta : rec.metadata = some m0) :
    ∃ r, (putTest st tid
        { emptyPatch with metadata := some { m0 with firmware := some fw } } now).2.kv tid =
          some r ∧
      r.metadata = some { m0 with firmware := some fw } ∧
      r.metadata.map (·.date) = rec.metadata.map (·.date) ∧
      r.metadata.map (·.deviceId) = rec.metadata.map (·.deviceId) ∧
      r.metadata.map (·.deviceType) = rec.metadata.map (·.deviceType) ∧
      r.metadata.map (·.testCycle) = rec.metadata.map (·.testCycle) ∧
      r.metadata.map (·.location) = rec.metadata.map (·.location) ∧
      r.metadata.map (·.environment) = rec.metadata.map (·.environment) ∧
      r.metadata.map (·.timeStart) = rec.metadata.map (·.timeStart) ∧
      r.metadata.map (·.timeEnd) = rec.metadata.map (·.timeEnd) ∧
      r.metadata.map (·.roadType) = rec.metadata.map (·.roadType) ∧
      r.metadata.map (·.postedSpeedLimit) = rec.metadata.map (·.postedSpeedLimit) ∧
      r.metadata.map (·.numberOfLanes) = rec.metadata.map (·.numberOfLanes) ∧
      r.metadata.map (·.trafficDensity) = rec.metadata.map (·.trafficDensity) ∧
      r.metadata.map (·.roadHeading) = rec.metadata.map (·.roadHeading) ∧
      r.metadata.map (·.cameraHeading) = rec.metadata.map (·.cameraHeading) ∧
      r.metadata.map (·.lighting) = rec.metadata.map (·.lighting) ∧
      r.metadata.map (·.weatherCondition) = rec.metadata.map (·.weatherCondition) ∧
      r.metadata.map (·.severity) = rec.metadata.map (·.severity) ∧
      r.metadata.map (·.measuredDistance) = rec.metadata.map (·.measuredDistance) ∧
      r.metadata.map (·.mountHeight) = rec.metadata.map (·.mountHeight) ∧
      r.metadata.map (·.pitchAngle) = rec.metadata.map (·.pitchAngle) ∧
      r.metadata.map (·.vehicleCaptureView) = rec.metadata.map (·.vehicleCaptureView) ∧
      r.metadata.map (·.externalBatteryPluggedIn) =
        rec.metadata.map (·.externalBatteryPluggedIn) ∧
      r.metadata.map (·.varVersion) = rec.metadata.map (·.varVersion) ∧
      r.geoLocation = rec.geoLocation ∧
      r.videos = rec.videos ∧
      r.userInfo = rec.userInfo ∧
      r.sessionId = rec.sessionId ∧
      r.videoFileName = rec.videoFileName ∧
      r.videoUrl = rec.videoUrl ∧
      r.videoUploadedAt = rec.videoUploadedAt ∧
      r.status = rec.status ∧
      r.createdAt = rec.createdAt := by
  refine ⟨mergeUpdate rec tid
    { emptyPatch with metadata := some { m0 with firmware := some fw } } now, ?_, ?_⟩
  · simp [putTest, hrec]
  · simp [mergeUpdate, jsSpread, emptyPatch, hmeta]

/-- Witness for the amended C2 theorem at a concrete record. -/
theorem putTest_full_metadata_patch_frame_witness :
    ∃ r, (putTest c2State "t1"
        { emptyPatch with metadata := some { c2Meta with firmware := some "v2" } }
        "T1").2.kv "t1" = some r ∧
      r.metadata = some { c2Meta with firmware := some "v2" } ∧
      r.metadata.map (·.date) = c2Record.metadata.map (·.date) ∧
      r.metadata.map (·.deviceId) = c2Record.metadata.map (·.deviceId) ∧
      r.metadata.map (·.deviceType) = c2Record.metadata.map (·.deviceType) ∧
      r.metadata.map (·.testCycle) = c2Record.metadata.map (·.testCycle) ∧
      r.metadata.map (·.location) = c2Record.metadata.map (·.location) ∧
      r.metadata.map (·.environment) = c2Record.metadata.map (·.environment) ∧
      r.metadata.map (·.timeStart) = c2Record.metadata.map (·.timeStart) ∧
      r.metadata.map (·.timeEnd) = c2Record.metadata.map (·.timeEnd) ∧
      r.metadata.map (·.roadType) = c2Record.metadata.map (·.roadType) ∧
      r.metadata.map (·.postedSpeedLimit) = c2Record.metadata.map (·.postedSpeedLimit) ∧
      r.metadata.map (·.numberOfLanes) = c2Record.metadata.map (·.numberOfLanes) ∧
      r.metadata.map (·.trafficDensity) = c2Record.metadata.map (·.trafficDensity) ∧
      r.metadata.map (·.roadHeading) = c2Record.metadata.map (·.roadHeading) ∧
      r.metadata.map (·.cameraHeading) = c2Record.metadata.map (·.cameraHeading) ∧
      r.metadata.map (·.lighting) = c2Record.metadata.map (·.lighting) ∧
      r.metadata.map (·.weatherCondition) = c2Record.metadata.map (·.weatherCondition) ∧
      r.metadata.map (·.severity) = c2Record.metadata.map (·.severity) ∧
      r.metadata.map (·.measuredDistance) = c2Record.metadata.map (·.measuredDistance) ∧
      r.metadata.map (·.mountHeight) = c2Record.metadata.map (·.mountHeight) ∧
      r.metadata.map (·.pitchAngle) = c2Record.metadata.map (·.pitchAngle) ∧
      r.metadata.map (·.vehicleCaptureView) = c2Record.metadata.map (·.vehicleCaptureView) ∧
      r.metadata.map (·.externalBatteryPluggedIn) =
        c2Record.metadata.map (·.externalBatteryPluggedIn) ∧
      r.metadata.map (·.varVersion) = c2Record.metadata.map (·.varVersion) ∧
      r.geoLocation = c2Record.geoLocation ∧
      r.videos = c2Record.videos ∧
      r.userInfo = c2Record.userInfo ∧
      r.sessionId = c2Record.sessionId ∧
      r.videoFileName = c2Record.videoFileName ∧
      r.videoUrl = c2Record.videoUrl ∧
      r.videoUploadedAt = c2Record.videoUploadedAt ∧
      r.status = c2Record.status ∧
      r.createdAt = c2Record.createdAt :=
  putTest_full_metadata_patch_frame c2State "t1" "v2" "T1" c2Record c2Meta rfl rfl

/-- An environment in which GPS, the server IP endpoint and every direct
provider fail. -/
def envAllFail : GeoEnv :=
  { geolocationSupported := true
    gpsResult := none
    reverseGeo := none
    serverResp := none
    providerResp := fun _ => none }

/-- Claim C5 (counterexample): when GPS, the server-side IP endpoint and
every direct IP provider all fail, the resolver does not produce the
`Unknown`/`Unknown` fix the claim demands — it produces the hard-coded
default city `San Francisco` / state `California` (with zeroed
coordinates and manual-entry mode on). -/
theorem captureLocation_all_fail_default_city :
    (captureLocation envAllFail "2026-01-20T10:05:00Z").location =
      some { latitude := 0, longitude := 0, city := "San Francisco"
             state := "California", accuracy := 0
             timestamp := "2026-01-20T10:05:00Z" } ∧
    (captureLocation envAllFail "2026-01-20T10:05:00Z").location.map (·.city) ≠
      some "Unknown" ∧
    (captureLocation envAllFail "2026-01-20T10:05:00Z").location.map (·.state) ≠
      some "Unknown" := by
  refine ⟨rfl, ?_, ?_⟩ <;> decide

/-- Claim C5 (amended): whenever GPS, the server-side IP endpoint and
every direct IP provider fail, the resolver produces a GeoFix with
latitude 0, longitude 0, the hard-coded default city "San Francisco" and
state "California" (not "Unknown"/"Unknown" — that fix would only arise
if the IP fallback chain itself threw, which its catch-all defaults make
unreachable), and switches the interface into manual-entry mode. -/
theorem captureLocation_all_fail_outcome (env : GeoEnv) (now : String)
    (hsup : env.geolocationSupported = true)
    (hgps : env.gpsResult = none)
    (hserver : serverIPSuccess env.serverResp = none)
    (hprov : ∀ s ∈ services, env.providerResp s = none) :
    captureLocation env now =
      { location := some
          { latitude := 0, longitude := 0, city := "San Francisco"
            state := "California", accuracy := 0, timestamp := now }
        showManualEntry := true } := by
  have h0 := hprov "https://ipapi.co/json/" (by simp [services])
  have h1 := hprov "https://ip-api.com/json/" (by simp [services])
  have h2 := hprov "https://ipinfo.io/json" (by simp [services])
  simp [captureLocation, hsup, hgps, getIPBasedLocation, hserver,
    getDirectIPLocation, tryServices, services, h0, h1, h2]

/-- Witness for the amended C5 theorem at the all-fail environment. -/
theorem captureLocation_all_fail_outcome_witness :
    captureLocation envAllFail "2026-01-20T10:06:00Z" =
      { location := some
          { latitude := 0, longitude := 0, city := "San Francisco"
            state := "California", accuracy := 0
            timestamp := "2026-01-20T10:06:00Z" }
        showManualEntry := true } :=
  captureLocation_all_fail_outcome envAllFail "2026-01-20T10:06:00Z" rfl rfl rfl
    (fun _ _ => rfl)

/-- A sample video file for the selection fixtures. -/
def vidFile1 : FileMeta := { name := "clip1.mp4", type := "video/mp4", size := 100 }

/-- A second sample video file. -/
def vidFile2 : FileMeta := { name := "clip2.mov", type := "video/quicktime", size := 200 }

/-- A third sample video file. -/
def vidFile3 : FileMeta := { name := "clip3.webm", type := "video/webm", size := 300 }

/-- A non-video file. -/
def docFile1 : FileMeta := { name := "notes.pdf", type := "application/pdf", size := 10 }

/-- A second non-video file. -/
def docFile2 : FileMeta := { name := "shot.png", type := "image/png", size := 20 }

/-- Claim C7 (counterexample): a file-input selection containing zero
files qualifies zero files, yet no rejection notice is reported — the
handler's nonempty guard silently ignores it (the prior selection is
kept, as the claim says). -/
theorem fileSelect_empty_selection_silent :
    handleFileSelect [vidFile1] [] = ([vidFile1], none) ∧
    (handleFileSelect [vidFile1] []).2 ≠ some SelectNotice.rejected := by
  exact ⟨rfl, by decide⟩

/-- Claim C7 (amended): for every drop, and for every nonempty file-input
selection, the accepted files are exactly those whose MIME type starts
with `video/` (they replace the selection), and when zero files qualify a
rejection notice is reported with the previous selection left untouched;
an empty file-input selection is ignored silently. -/
theorem videoFilter_behavior :
    (∀ prior files : List FileMeta,
      ((files.filter (fun f => strStartsWith f.type "video/")).length > 0 →
        handleDrop prior files =
          (files.filter (fun f => strStartsWith f.type "video/"),
           some (SelectNotice.accepted
             (files.filter (fun f => strStartsWith f.type "video/")).length))) ∧
      ((files.filter (fun f => strStartsWith f.type "video/")).length = 0 →
        handleDrop prior files = (prior, some SelectNotice.rejected))) ∧
    (∀ prior files : List FileMeta, files ≠ [] →
      ((files.filter (fun f => strStartsWith f.type "video/")).length > 0 →
        handleFileSelect prior files =
          (files.filter (fun f => strStartsWith f.type "video/"),
           some (SelectNotice.accepted
             (files.filter (fun f => strStartsWith f.type "video/")).length))) ∧
      ((files.filter (fun f => strStartsWith f.type "video/")).length = 0 →
        handleFileSelect prior files = (prior, some SelectNotice.rejected))) ∧
    (∀ prior : List FileMeta, handleFileSelect prior [] = (prior, none)) := by
  refine ⟨fun prior files => ⟨fun hpos => ?_, fun hzero => ?_⟩,
    fun prior files hne => ⟨fun hpos => ?_, fun hzero => ?_⟩,
    fun prior => rfl⟩
  · simp [handleDrop, hpos]
  · simp [handleDrop, hzero]
  · have hlen : files.length > 0 := List.length_pos.mpr hne
    simp [handleFileSelect, hlen, hpos]
  · have hlen : files.length > 0 := List.length_pos.mpr hne
    simp [handleFileSelect, hlen, hzero]

/-- Witness for the amended C7 theorem: a mixed batch of 3 video and 2
non-video files yields exactly the 3 video files with an accepted-3
notice, and a drop with no qualifying file keeps the selection and
reports a rejection. -/
theorem videoFilter_behavior_witness :
    handleDrop [] [vidFile1, docFile1, vidFile2, docFile2, vidFile3] =
      ([vidFile1, vidFile2, vidFile3], some (SelectNotice.accepted 3)) ∧
    handleDrop [vidFile1] [docFile1, docFile2] = ([vidFile1], some SelectNotice.rejected) := by
  constructor
  · exact ((videoFilter_behavior.1 [] [vidFile1, docFile1, vidFile2, docFile2, vidFile3]).1
      (by decide)).trans (by decide)
  · exact (videoFilter_behavior.1 [vidFile1] [docFile1, docFile2]).2 (by decide)

/-- Re-applying an identical POST body over the record it produced only
bumps `updatedAt`. -/
theorem postRecord_stable (e : Option TestRecord) (p : TestPatch) (n1 n2 : String) :
    postRecord (some (postRecord e p n1)) p n2 =
      { postRecord e p n1 with updatedAt := n2 } := by
  unfold postRecord
  simp only [Option.some_bind, Option.map_some]
  congr 1 <;>
    simp [jsSpread_self, opt_getD_self, jsSpread_getD_self]

/-- Claim C3: from any starting state, calling POST `/tests` twice with an
identical payload leaves a stored kv record identical to the one a single
call stores, apart from `updatedAt` — in particular `createdAt`, `status`,
`videos` and all metadata/geo/user fields are unchanged by the second
call. -/
theorem createOrUpdateTest_idempotent (st : ServerState) (p : TestPatch) (n1 n2 : String)
    (h : ¬ p.testId = "") :
    ∃ rec1,
      (postTest st p n1).2.kv p.testId = some rec1 ∧
      (postTest (postTest st p n1).2 p n2).2.kv p.testId =
        some { rec1 with updatedAt := n2 } := by
  refine ⟨postRecord (st.kv p.testId) p n1, ?_, ?_⟩
  · simp [postTest, h]
  · simp [postTest, h, postRecord_stable]

/-- Witness for C3: the double submit of a concrete full payload. -/
theorem createOrUpdateTest_idempotent_witness :
    ∃ rec1,
      (postTest emptyState
          { emptyPatch with
            testId := "t1"
            sessionId := some "s1"
            userInfo := some sampleUser
            geoLocation := some sampleGeo
            metadata := some sampleMeta } "T1").2.kv "t1" = some rec1 ∧
      (postTest (postTest emptyState
          { emptyPatch with
            testId := "t1"
            sessionId := some "s1"
            userInfo := some sampleUser
            geoLocation := some sampleGeo
            metadata := some sampleMeta } "T1").2
          { emptyPatch with
            testId := "t1"
            sessionId := some "s1"
            userInfo := some sampleUser
            geoLocation := some sampleGeo
            metadata := some sampleMeta } "T2").2.kv "t1" =
        some { rec1 with updatedAt := "T2" } :=
  createOrUpdateTest_idempotent emptyState
    { emptyPatch with
      testId := "t1"
      sessionId := some "s1"
      userInfo := some sampleUser
      geoLocation := some sampleGeo
      metadata := some sampleMeta } "T1" "T2" (by decide)

/-- Claim C9: POST `/tests` on an existing kv record always preserves the
record's original `createdAt`, and when the payload carries no `status`
key it also preserves the existing `status` — a completed record cannot
revert to pending through a metadata-only re-submit. -/
theorem createOrUpdateTest_preserves_created_and_status (st : ServerState) (p : TestPatch)
    (now : String) (t : TestRecord) (h : st.kv p.testId = some t) :
    ∃ rec, (postTest st p now).2.kv p.testId = some rec ∧
      rec.createdAt = t.createdAt ∧
      (p.status = none → rec.status = t.status) := by
  by_cases hid : p.testId = ""
  · refine ⟨t, ?_, rfl, fun _ => rfl⟩
    simp [postTest, hid, hid ▸ h]
  · refine ⟨postRecord (st.kv p.testId) p now, ?_, ?_, ?_⟩
    · simp [postTest, hid]
    · simp [postRecord, h]
    · intro hstat
      simp [postRecord, h, hstat, jsSpread]

/-- Witness for C9: a completed record stays completed (and keeps its
original `createdAt`) under a metadata-only re-submit. -/
theorem createOrUpdateTest_preserves_created_and_status_witness :
    ∃ rec, (postTest c2State
        { emptyPatch with testId := "t1", metadata := some sampleMeta } "T9").2.kv "t1" =
        some rec ∧
      rec.createdAt = c2Record.createdAt ∧
      ((({ emptyPatch with testId := "t1", metadata := some sampleMeta } : TestPatch).status =
          none) → rec.status = c2Record.status) :=
  createOrUpdateTest_preserves_created_and_status c2State
    { emptyPatch with testId := "t1", metadata := some sampleMeta } "T9" c2Record rfl

/-- A state holding `c2Record` with its two blobs in the bucket. -/
def c6State : ServerState :=
  { emptyState with
    kv := fun id => if id = "t1" then some c2Record else none
    storage := ["t1-1000-clip1.mp4", "t1-2000-clip2.mp4"] }

/-- Claim C6: deleting a test whose record references two video files
removes both blob keys from storage and drops the record, so a subsequent
GET answers NotFound; deleting an absent testId fails with 404 and leaves
the state untouched. -/
theorem deleteTest_cascade (st : ServerState) (tid tid2 : String) (t : TestRecord)
    (v1 v2 : VideoRef)
    (h : st.kv tid = some t) (hv : t.videos = [v1, v2])
    (h1 : v1.fileName ≠ "") (h2 : v2.fileName ≠ "")
    (habsent : st.kv tid2 = none) :
    (deleteTest st tid).1 = Except.ok () ∧
    v1.fileName ∉ (deleteTest st tid).2.storage ∧
    v2.fileName ∉ (deleteTest st tid).2.storage ∧
    (deleteTest st tid).2.kv tid = none ∧
    getTest (deleteTest st tid).2 tid = none ∧
    deleteTest st tid2 = (Except.error ⟨404, "Test not found"⟩, st) := by
  have hmem1 : v1.fileName ∈ (collectBlobKeys t).dedup := by
    rw [List.mem_dedup]
    simp [collectBlobKeys, hv, h1]
  have hmem2 : v2.fileName ∈ (collectBlobKeys t).dedup := by
    rw [List.mem_dedup]
    simp [collectBlobKeys, hv, h2]
  have hlen : ((collectBlobKeys t).dedup).length > 0 :=
    List.length_pos.mpr (List.ne_nil_of_mem hmem1)
  refine ⟨?_, ?_, ?_, ?_, ?_, ?_⟩
  · simp [deleteTest, h]
  · simp only [deleteTest, h, hlen, if_pos]
    intro hcontra
    rcases List.mem_filter.mp hcontra with ⟨_, hb⟩
    simp [hmem1] at hb
  · simp only [deleteTest, h, hlen, if_pos]
    intro hcontra
    rcases List.mem_filter.mp hcontra with ⟨_, hb⟩
    simp [hmem2] at hb
  · simp [deleteTest, h]
  · simp [deleteTest, h, getTest]
  · simp [deleteTest, habsent]

/-- Witness for C6: deleting the concrete two-video record removes both
blob keys and the record; deleting an absent id 404s. -/
theorem deleteTest_cascade_witness :
    (deleteTest c6State "t1").1 = Except.ok () ∧
    sampleVideo1.fileName ∉ (deleteTest c6State "t1").2.storage ∧
    sampleVideo2.fileName ∉ (deleteTest c6State "t1").2.storage ∧
    (deleteTest c6State "t1").2.kv "t1" = none ∧
    getTest (deleteTest c6State "t1").2 "t1" = none ∧
    deleteTest c6State "t9" = (Except.error ⟨404, "Test not found"⟩, c6State) :=
  deleteTest_cascade c6State "t1" "t9" c2Record sampleVideo1 sampleVideo2 rfl rfl
    (by decide) (by decide) rfl

/-- Claim C10: the upload handler stores the blob and mints its signed
URL before checking that the test record exists, so for an absent testId
it fails with 404 while the kv store, the `tests` table and the
`test_videos` table are unchanged — but the freshly uploaded blob remains
in the bucket, referenced by no record. -/
theorem uploadVideo_orphan_blob_on_missing_test (st : ServerState) (f : UploadFile)
    (tid nowIso : String) (nowMs : Nat)
    (hid : ¬ tid = "")
    (habsent : st.kv tid = none)
    (hfresh : st.storage.contains (tid ++ "-" ++ toString nowMs ++ "-" ++ f.name) = false)
    (hnoref : ∀ id rec, st.kv id = some rec →
      (tid ++ "-" ++ toString nowMs ++ "-" ++ f.name) ∉ collectBlobKeys rec) :
    (uploadVideo st f tid nowIso nowMs).1 = Except.error ⟨404, "Test not found"⟩ ∧
    (uploadVideo st f tid nowIso nowMs).2.kv = st.kv ∧
    (uploadVideo st f tid nowIso nowMs).2.rows = st.rows ∧
    (uploadVideo st f tid nowIso nowMs).2.videoRows = st.videoRows ∧
    (tid ++ "-" ++ toString nowMs ++ "-" ++ f.name) ∈
      (uploadVideo st f tid nowIso nowMs).2.storage ∧
    (∀ id rec, (uploadVideo st f tid nowIso nowMs).2.kv id = some rec →
      (tid ++ "-" ++ toString nowMs ++ "-" ++ f.name) ∉ collectBlobKeys rec) := by
  have hfresh2 : (tid ++ "-" ++ toString nowMs ++ "-" ++ f.name) ∉ st.storage := by
    simpa using hfresh
  have hup : uploadVideo st f tid nowIso nowMs =
      (Except.error ⟨404, "Test not found"⟩,
        { st with storage := st.storage ++ [tid ++ "-" ++ toString nowMs ++ "-" ++ f.name] }) := by
    simp [uploadVideo, hid, hfresh2, habsent]
  refine ⟨by rw [hup], by rw [hup], by rw [hup], by rw [hup], ?_, ?_⟩
  · rw [hup]
    simp
  · rw [hup]
    exact hnoref

/-- Witness for C10: uploading against an absent testId on an empty store
leaves the blob orphaned. -/
theorem uploadVideo_orphan_blob_on_missing_test_witness :
    (uploadVideo emptyState ⟨"clip.mp4", 100, "video/mp4"⟩ "t1" "T1" 123).1 =
      Except.error ⟨404, "Test not found"⟩ ∧
    (uploadVideo emptyState ⟨"clip.mp4", 100, "video/mp4"⟩ "t1" "T1" 123).2.kv =
      emptyState.kv ∧
    (uploadVideo emptyState ⟨"clip.mp4", 100, "video/mp4"⟩ "t1" "T1" 123).2.rows =
      emptyState.rows ∧
    (uploadVideo emptyState ⟨"clip.mp4", 100, "video/mp4"⟩ "t1" "T1" 123).2.videoRows =
      emptyState.videoRows ∧
    ("t1" ++ "-" ++ toString 123 ++ "-" ++ "clip.mp4") ∈
      (uploadVideo emptyState ⟨"clip.mp4", 100, "video/mp4"⟩ "t1" "T1" 123).2.storage ∧
    (∀ id rec, (uploadVideo emptyState ⟨"clip.mp4", 100, "video/mp4"⟩ "t1" "T1" 123).2.kv id =
        some rec →
      ("t1" ++ "-" ++ toString 123 ++ "-" ++ "clip.mp4") ∉ collectBlobKeys rec) :=
  uploadVideo_orphan_blob_on_missing_test emptyState ⟨"clip.mp4", 100, "video/mp4"⟩
    "t1" "T1" 123 (by decide) rfl rfl
    (fun id rec hrec => by simp [emptyState] at hrec)

/-- The service mapping succeeds on the first configured provider. -/
theorem mapService_svc0 (d : ProviderJson) :
    mapService "https://ipapi.co/json/" d =
      some (jsOr d.city "Unknown", jsOr d.region "Unknown") := by
  have : jsIncludes "https://ipapi.co/json/" "ipapi.co" = true := by decide
  simp [mapService, this]

/-- The service mapping succeeds on the second configured provider. -/
theorem mapService_svc1 (d : ProviderJson) :
    mapService "https://ip-api.com/json/" d =
      some (jsOr d.city "Unknown", jsOr d.regionName "Unknown") := by
  have h0 : jsIncludes "https://ip-api.com/json/" "ipapi.co" = false := by decide
  have h1 : jsIncludes "https://ip-api.com/json/" "ip-api.com" = true := by decide
  simp [mapService, h0, h1]

/-- The service mapping succeeds on the third configured provider. -/
theorem mapService_svc2 (d : ProviderJson) :
    mapService "https://ipinfo.io/json" d =
      some (jsOr d.city "Unknown", jsOr d.region "Unknown") := by
  have h0 : jsIncludes "https://ipinfo.io/json" "ipapi.co" = false := by decide
  have h1 : jsIncludes "https://ipinfo.io/json" "ip-api.com" = false := by decide
  have h2 : jsIncludes "https://ipinfo.io/json" "ipinfo.io" = true := by decide
  simp [mapService, h0, h1, h2]

/-- Claim C4: whenever GPS fails (including timeout), the resolver's
attempt sequence is the GPS request, then the server-side IP endpoint,
and only then direct providers; and when the server-side path fails, the
direct providers are attempted in their configured order, stopping at the
first one that responds successfully. -/
theorem captureLocation_fallback_order (env : GeoEnv)
    (hsup : env.geolocationSupported = true)
    (hgps : env.gpsResult = none) :
    (∃ ps, captureAttempts env = [GeoAttempt.gps, GeoAttempt.serverIP] ++ ps ∧
      ∀ a ∈ ps, ∃ u, a = GeoAttempt.provider u) ∧
    (∀ k, serverIPSuccess env.serverResp = none → providerOk env k = true →
      (∀ j, j < k → providerOk env j = false) →
      captureAttempts env =
        [GeoAttempt.gps, GeoAttempt.serverIP] ++
          (services.take (k + 1)).map GeoAttempt.provider) := by
  constructor
  · cases hs : serverIPSuccess env.serverResp with
    | some cs =>
      exact ⟨[], by simp [captureAttempts, hsup, hgps, hs], by simp⟩
    | none =>
      refine ⟨(triedServices services env.providerResp).map GeoAttempt.provider,
        by simp [captureAttempts, hsup, hgps, hs], ?_⟩
      intro a ha
      rcases List.mem_map.mp ha with ⟨u, _, rfl⟩
      exact ⟨u, rfl⟩
  · intro k hserver hk hprev
    have hk3 : k < 3 := by
      rcases k with _ | _ | _ | k4
      · omega
      · omega
      · omega
      · rw [providerOk] at hk
        simp [services] at hk
    interval_cases k
    · have h0 : (env.providerResp "https://ipapi.co/json/").isSome = true := by
        simpa [providerOk, services] using hk
      rcases Option.isSome_iff_exists.mp h0 with ⟨d0, hd0⟩
      simp [captureAttempts, hsup, hgps, hserver, triedServices, services, hd0,
        mapService_svc0]
    · have h0f : env.providerResp "https://ipapi.co/json/" = none := by
        have hp := hprev 0 (by omega)
        cases henv : env.providerResp "https://ipapi.co/json/" with
        | none => rfl
        | some d => simp [providerOk, services, henv] at hp
      have h1 : (env.providerResp "https://ip-api.com/json/").isSome = true := by
        simpa [providerOk, services] using hk
      rcases Option.isSome_iff_exists.mp h1 with ⟨d1, hd1⟩
      simp [captureAttempts, hsup, hgps, hserver, triedServices, services, h0f, hd1,
        mapService_svc1]
    · have h0f : env.providerResp "https://ipapi.co/json/" = none := by
        have hp := hprev 0 (by omega)
        cases henv : env.providerResp "https://ipapi.co/json/" with
        | none => rfl
        | some d => simp [providerOk, services, henv] at hp
      have h1f : env.providerResp "https://ip-api.com/json/" = none := by
        have hp := hprev 1 (by omega)
        cases henv : env.providerResp "https://ip-api.com/json/" with
        | none => rfl
        | some d => simp [providerOk, services, henv] at hp
      have h2 : (env.providerResp "https://ipinfo.io/json").isSome = true := by
        simpa [providerOk, services] using hk
      rcases Option.isSome_iff_exists.mp h2 with ⟨d2, hd2⟩
      simp [captureAttempts, hsup, hgps, hserver, triedServices, services, h0f, h1f,
        hd2, mapService_svc2]

/-- An environment where GPS fails, the server IP endpoint answers with
`success: false`, the first direct provider fails, and the second
responds. -/
def c4Env : GeoEnv :=
  { geolocationSupported := true
    gpsResult := none
    reverseGeo := none
    serverResp := some { success := false, city := none, state := none }
    providerResp := fun s =>
      if s = "https://ip-api.com/json/" then
        some { city := some "Fremont", region := none, regionName := some "California" }
      else none }

/-- Witness for C4: in `c4Env` the attempts are GPS, then the server IP
endpoint, then the first two providers in order (stopping at the second,
which is the first to respond). -/
theorem captureLocation_fallback_order_witness :
    (∃ ps, captureAttempts c4Env = [GeoAttempt.gps, GeoAttempt.serverIP] ++ ps ∧
      ∀ a ∈ ps, ∃ u, a = GeoAttempt.provider u) ∧
    captureAttempts c4Env =
      [GeoAttempt.gps, GeoAttempt.serverIP] ++
        (services.take 2).map GeoAttempt.provider := by
  have h := captureLocation_fallback_order c4Env rfl rfl
  exact ⟨h.1, h.2 1 rfl rfl (by decide)⟩
